import Mathlib

/-!
Verification development for the `gemini-live-server` websocket relay
(`src/main.py`).  The Python source is shallowly embedded: JSON values are an
inductive type with Python truthiness and dictionary semantics, the
`GeminiConnection` class is a structure with pure methods returning the new
state together with the messages written to the wire, the two pump loops
(`receive_from_client`, `receive_from_gemini`) are recursive functions over
the list of frames/messages each loop would observe, and the supervisor
`websocket_endpoint` is a function from its environment inputs (API key
presence, first client message, upstream open/ack outcomes, the streams fed
to the pumps) to the final process state and a trace of observable events.
-/

namespace GeminiLive

/-- JSON values, as produced by `json.loads` and consumed by `json.dumps`
in `src/main.py`. -/
inductive JSON where
  | null
  | bool (b : Bool)
  | num (n : Int)
  | str (s : String)
  | arr (elems : List JSON)
  | obj (fields : List (String × JSON))

/-- Python truthiness (`if x:`) of a JSON value. -/
def JSON.truthy : JSON → Bool
  | .null => false
  | .bool b => b
  | .num n => n != 0
  | .str s => s != ""
  | .arr xs => !xs.isEmpty
  | .obj fs => !fs.isEmpty

/-- Whether the value is a JSON object (a Python `dict`). -/
def JSON.isObj : JSON → Bool
  | .obj _ => true
  | _ => false

/-- Python `==` between a JSON value and a string literal: only equal
strings compare equal. -/
def jeqStr : JSON → String → Bool
  | .str s, t => s == t
  | _, _ => false

/-- First binding of key `k` in a field list (Python dict lookup). -/
def jfield (fs : List (String × JSON)) (k : String) : Option JSON :=
  (fs.find? (fun kv => kv.1 == k)).map (fun kv => kv.2)

/-- Dict lookup with a default. -/
def jfieldD (fs : List (String × JSON)) (k : String) (d : JSON) : JSON :=
  (jfield fs k).getD d

/-- Field lookup on a JSON value; `none` when absent or not an object. -/
def jget : JSON → String → Option JSON
  | .obj fs, k => jfield fs k
  | _, _ => none

/-- Index into a JSON array. -/
def jindex : JSON → Nat → Option JSON
  | .arr xs, i => xs[i]?
  | _, _ => none

/-- Python exceptions that the embedded code can raise. -/
inductive PyErr where
  | attrError
  | typeError
  | keyError (k : String)
  | valueError (m : String)
  | connError (m : String)

/-- Diagnostic text of an exception (stands in for `str(e)`). -/
def PyErr.msg : PyErr → String
  | .attrError => "AttributeError"
  | .typeError => "TypeError"
  | .keyError k => "KeyError: " ++ k
  | .valueError m => m
  | .connError m => m

/-- Python `x.get(k)`: `None` when the key is absent, `AttributeError`
when `x` is not a dict. -/
def pyGet : JSON → String → Except PyErr JSON
  | .obj fs, k => .ok (jfieldD fs k .null)
  | _, _ => .error .attrError

/-- Python `x.get(k, d)`. -/
def pyGetD : JSON → String → JSON → Except PyErr JSON
  | .obj fs, k, d => .ok (jfieldD fs k d)
  | _, _, _ => .error .attrError

/-- Python `x[k]` for a string key: `KeyError` when absent,
`TypeError` when `x` is not a dict. -/
def pyIndex : JSON → String → Except PyErr JSON
  | .obj fs, k =>
    match jfield fs k with
    | some v => .ok v
    | none => .error (.keyError k)
  | _, _ => .error .typeError

/-- Substring test (Python `needle in haystack` for strings). -/
def strContains (hay needle : String) : Bool :=
  decide (2 ≤ (hay.splitOn needle).length)

/-- Python `needle in x` for a string needle: key containment for dicts,
substring for strings, membership for lists, `TypeError` otherwise. -/
def pyIn (needle : String) : JSON → Except PyErr Bool
  | .obj fs => .ok (fs.any (fun kv => kv.1 == needle))
  | .str s => .ok (strContains s needle)
  | .arr xs => .ok (xs.any (fun x => jeqStr x needle))
  | _ => .error .typeError

/-- Python `for p in x`: lists yield elements, strings yield one-character
strings, dicts yield their keys; other values raise `TypeError`. -/
def pyIter : JSON → Except PyErr (List JSON)
  | .arr xs => .ok xs
  | .str s => .ok (s.toList.map (fun c => JSON.str (String.mk [c])))
  | .obj fs => .ok (fs.map (fun kv => JSON.str kv.1))
  | _ => .error .typeError

/-! ## The `GeminiConnection` class (src/main.py lines 25-149) -/

/-- State of a `GeminiConnection` object.  The websocket handle is
abstracted to `Option Unit`: `none` is Python `None`, `some ()` an open
connection object. -/
structure GeminiConnection where
  api_key : String
  model : String
  uri : String
  ws : Option Unit
  config : JSON

/-- `GeminiConnection.__init__`: raises `ValueError` when the
`GEMINI_API_KEY` environment variable is absent or empty (Python
`if not self.api_key`); otherwise sets the model, the keyed URI, a null
websocket handle and a null (unset) configuration. -/
def GeminiConnection.mkConn (apiKey : Option String) : Except PyErr GeminiConnection :=
  match apiKey with
  | none => .error (.valueError "GEMINI_API_KEY not found in environment variables.")
  | some k =>
    if k == "" then
      .error (.valueError "GEMINI_API_KEY not found in environment variables.")
    else
      .ok
        { api_key := k
          model := "gemini-2.0-flash-exp"
          uri :=
            "wss://generativelanguage.googleapis.com/ws/google.ai.generativelanguage.v1alpha.GenerativeService.BidiGenerateContent?key="
              ++ k
          ws := none
          config := .null }

/-- `set_config` (line 82): stores the configuration value. -/
def GeminiConnection.set_config (g : GeminiConnection) (c : JSON) : GeminiConnection :=
  { g with config := c }

/-- `close` (line 111): when the handle is set, closes it and clears it;
idempotent. -/
def GeminiConnection.close (g : GeminiConnection) : GeminiConnection :=
  if g.ws.isSome then { g with ws := none } else g

/-- The setup message built in `connect` (lines 52-73) from the model name
and the stored configuration.  `self.config["voice"]` and
`self.config["systemPrompt"]` are Python subscripts and can raise. -/
def setupMessage (model : String) (config : JSON) : Except PyErr JSON :=
  match pyIndex config "voice" with
  | .error e => .error e
  | .ok voice =>
    match pyIndex config "systemPrompt" with
    | .error e => .error e
    | .ok sys =>
      .ok (.obj
        [("setup", .obj
          [("model", .str ("models/" ++ model)),
           ("generation_config", .obj
             [("response_modalities", .arr [.str "AUDIO"]),
              ("speech_config", .obj
                [("voice_config", .obj
                  [("prebuilt_voice_config", .obj
                    [("voice_name", voice)])])])]),
           ("system_instruction", .obj
             [("parts", .arr [.obj [("text", sys)]])])])])

/-- The `realtime_input` message built by `send_audio` (lines 90-99). -/
def audioMessage (d : JSON) : JSON :=
  .obj [("realtime_input", .obj
    [("media_chunks", .arr
      [.obj [("data", d), ("mime_type", .str "audio/pcm")]])])]

/-- The `realtime_input` message built by `send_image` (lines 121-130). -/
def imageMessage (d : JSON) : JSON :=
  .obj [("realtime_input", .obj
    [("media_chunks", .arr
      [.obj [("data", d), ("mime_type", .str "image/jpeg")]])])]

/-- The `client_content` message built by `send_text` (lines 137-147). -/
def textMessage (t : JSON) : JSON :=
  .obj [("client_content", .obj
    [("turns", .arr
      [.obj [("role", .str "user"),
             ("parts", .arr [.obj [("text", t)]])]]),
     ("turn_complete", .bool true)])]

/-- `send_audio` (line 87): the messages written to the provider wire —
one when the handle is open, none otherwise (`if self.ws:`). -/
def GeminiConnection.send_audio (g : GeminiConnection) (d : JSON) : List JSON :=
  if g.ws.isSome then [audioMessage d] else []

/-- `send_image` (line 118). -/
def GeminiConnection.send_image (g : GeminiConnection) (d : JSON) : List JSON :=
  if g.ws.isSome then [imageMessage d] else []

/-- `send_text` (line 134). -/
def GeminiConnection.send_text (g : GeminiConnection) (t : JSON) : List JSON :=
  if g.ws.isSome then [textMessage t] else []

/-! ## Observable events of a session -/

/-- Observable events of one client session, in the order the supervisor
and its pumps produce them. -/
inductive Ev where
  | accepted
  | registered (cid : String)
  | closedClient (code : Nat) (reason : String)
  | connectCalled
  | wsOpened
  | sentSetup (j : JSON)
  | ackReceived (a : String)
  | pumpsStarted
  | mediaUpstream (j : JSON)
  | mediaToClient (j : JSON)
  | closedUpstream (ref : Nat)
  | removedRegistry (cid : String)

/-- Result of a call to `GeminiConnection.connect`: the object state after
the call, the messages written to the provider, the observable events in
order, and either the raw acknowledgement or the exception raised. -/
structure ConnectResult where
  g : GeminiConnection
  sent : List JSON
  events : List Ev
  result : Except PyErr String

/-- `connect` (lines 40-80).  The environment is abstracted by `openOk`
(whether `await connect(self.uri, ...)` succeeds) and `ack` (the provider
setup acknowledgement, `none` when the connection closes before one
arrives).  Mirrors the source order: the websocket is opened and assigned
to `self.ws` first (line 43), only then is the configuration checked
(line 49); the setup message is then built (subscripting the stored
configuration), sent, and the acknowledgement awaited. -/
def GeminiConnection.connect (g : GeminiConnection) (openOk : Bool)
    (ack : Option String) : ConnectResult :=
  if !openOk then
    ⟨g, [], [.connectCalled], .error (.connError "UpstreamUnreachable")⟩
  else
    let g1 := { g with ws := some () }
    if !g1.config.truthy then
      ⟨g1, [], [.connectCalled, .wsOpened],
        .error (.valueError "Configuration must be set before connecting")⟩
    else
      match setupMessage g1.model g1.config with
      | .error e => ⟨g1, [], [.connectCalled, .wsOpened], .error e⟩
      | .ok setup =>
        match ack with
        | none =>
          ⟨g1, [setup], [.connectCalled, .wsOpened, .sentSetup setup],
            .error (.connError "HandshakeFailed")⟩
        | some a =>
          ⟨g1, [setup],
            [.connectCalled, .wsOpened, .sentSetup setup, .ackReceived a],
            .ok a⟩

/-! ## Relay envelopes sent to the client (src/main.py lines 266-318) -/

/-- `{"type": "audio", "data": d}` (line 283). -/
def audioEnvelope (d : JSON) : JSON :=
  .obj [("type", .str "audio"), ("data", d)]

/-- `{"type": "text", "text": t}` (line 290). -/
def textEnvelope (t : JSON) : JSON :=
  .obj [("type", .str "text"), ("text", t)]

/-- `{"type": "turn_complete", "data": true}` (line 296). -/
def turnCompleteEnvelope : JSON :=
  .obj [("type", .str "turn_complete"), ("data", .bool true)]

/-- `{"type": "error", "message": m}` (line 303). -/
def errorEnvelope (m : JSON) : JSON :=
  .obj [("type", .str "error"), ("message", m)]

/-- The envelope sent by the generic handler of `receive_from_gemini`
(line 316) when an exception escapes an iteration. -/
def faultEnvelope (e : PyErr) : JSON :=
  errorEnvelope (.str ("Server error during Gemini communication: " ++ e.msg))

/-! ## The upstream-to-client pump (`receive_from_gemini`, lines 254-326) -/

/-- Handling of one element of `parts` in the loop at lines 280-292:
either an exception, or an optional envelope to send to the client. -/
def partStep (p : JSON) : Except PyErr (Option JSON) :=
  match pyIn "inlineData" p with
  | .error e => .error e
  | .ok true =>
    match pyIndex p "inlineData" with
    | .error e => .error e
    | .ok inline =>
      match pyGet inline "data" with
      | .error e => .error e
      | .ok d => .ok (if d.truthy then some (audioEnvelope d) else none)
  | .ok false =>
    match pyIn "text" p with
    | .error e => .error e
    | .ok true =>
      match pyGet p "text" with
      | .error e => .error e
      | .ok t => .ok (if t.truthy then some (textEnvelope t) else none)
    | .ok false => .ok none

/-- Outcome of the `for p in parts` loop (lines 275-292): ran to
completion, returned early because the client disconnected (line 278), or
raised. -/
inductive PartsOutcome where
  | done (sent : List JSON)
  | returned (sent : List JSON)
  | faulted (sent : List JSON) (e : PyErr)

/-- Envelopes sent before the loop finished. -/
def PartsOutcome.sent : PartsOutcome → List JSON
  | .done s => s
  | .returned s => s
  | .faulted s _ => s

/-- Prepend an already-sent envelope to an outcome. -/
def PartsOutcome.push (env : JSON) : PartsOutcome → PartsOutcome
  | .done s => .done (env :: s)
  | .returned s => .returned (env :: s)
  | .faulted s e => .faulted (env :: s) e

/-- The `for p in parts` loop.  `connected` abstracts
`websocket.client_state.name != DISCONNECTED`, held fixed over the
iteration. -/
def processParts (connected : Bool) : List JSON → PartsOutcome
  | [] => .done []
  | p :: rest =>
    if !connected then .returned []
    else
      match partStep p with
      | .error e => .faulted [] e
      | .ok none => processParts connected rest
      | .ok (some env) => (processParts connected rest).push env

/-- One iteration of `receive_from_gemini` on a parsed provider message:
the envelopes sent to the client, and whether the loop continues. -/
structure GemStep where
  sent : List JSON
  cont : Bool

/-- An exception escaping the iteration: the generic handler (lines
312-318) sends a server-error envelope when the client is still connected,
and the loop ends. -/
def mkFault (connected : Bool) (sent : List JSON) (e : PyErr) : GemStep :=
  ⟨sent ++ (if connected then [faultEnvelope e] else []), false⟩

/-- The body of `receive_from_gemini` for one parsed provider message
(lines 266-304): extract `serverContent.modelTurn.parts` with dict
defaults, forward audio/text parts in order, then the `turnComplete`
signal, then a provider-reported error envelope. -/
def processGeminiResponse (connected : Bool) (response : JSON) : GemStep :=
  match pyGetD response "serverContent" (.obj []) with
  | .error e => mkFault connected [] e
  | .ok sc =>
    match pyGetD sc "modelTurn" (.obj []) with
    | .error e => mkFault connected [] e
    | .ok mt =>
      match pyGetD mt "parts" (.arr []) with
      | .error e => mkFault connected [] e
      | .ok partsVal =>
        match pyIter partsVal with
        | .error e => mkFault connected [] e
        | .ok parts =>
          match processParts connected parts with
          | .returned sent => ⟨sent, false⟩
          | .faulted sent e => mkFault connected sent e
          | .done sent1 =>
            match pyGet sc "turnComplete" with
            | .error e => mkFault connected sent1 e
            | .ok tc =>
              let sent2 := sent1 ++
                (if tc.truthy && connected then [turnCompleteEnvelope] else [])
              match pyIn "error" response with
              | .error e => mkFault connected sent2 e
              | .ok false => ⟨sent2, true⟩
              | .ok true =>
                match pyIndex response "error" with
                | .error e => mkFault connected sent2 e
                | .ok errVal =>
                  match pyGetD errVal "message" (.str "Unknown Gemini error") with
                  | .error e => mkFault connected sent2 e
                  | .ok m =>
                    ⟨sent2 ++ (if connected then [errorEnvelope m] else []),
                      true⟩

/-- The `receive_from_gemini` loop over the raw messages the provider
will deliver; `none` stands for a message `json.loads` rejects (the
`JSONDecodeError` handler at line 306 ends the loop without sending
anything).  The list ending models `gemini.receive()` yielding no data.
Returns every envelope sent to the client. -/
def receive_from_gemini (connected : Bool) : List (Option JSON) → List JSON
  | [] => []
  | m :: rest =>
    if !connected then []
    else
      match m with
      | none => []
      | some r =>
        let st := processGeminiResponse connected r
        st.sent ++ (if st.cont then receive_from_gemini connected rest else [])

/-! ## The client-to-upstream pump (`receive_from_client`, lines 198-252) -/

/-- One inbound client frame: a disconnect signal, a text frame (already
split on whether `json.loads` accepts it, `none` meaning it raised), or a
binary frame. -/
inductive ClientFrame where
  | disconnect
  | text (parsed : Option JSON)
  | binary

/-- Effect of one iteration of `receive_from_client`: exit the loop,
skip the message, or dispatch to one `GeminiConnection` send method. -/
inductive ClientAction where
  | stop
  | skip
  | sendAudio (d : JSON)
  | sendImage (d : JSON)
  | sendText (d : JSON)

/-- The body of `receive_from_client` for one frame (lines 205-245):
disconnect ends the loop; a binary frame is logged and skipped; a text
frame that fails to parse hits the `JSONDecodeError` handler and the loop
continues; a parsed non-dict hits the generic handler (`.get` raises
`AttributeError`) and the loop continues; an envelope whose `type` is
falsy or whose `data` is `None` is skipped; otherwise dispatch on
`type`, unknown types being skipped. -/
def processClientFrame : ClientFrame → ClientAction
  | .disconnect => .stop
  | .binary => .skip
  | .text none => .skip
  | .text (some content) =>
    match content with
    | .obj fs =>
      let msgType := jfieldD fs "type" .null
      let msgData := jfieldD fs "data" .null
      if !msgType.truthy then .skip
      else
        match msgData with
        | .null => .skip
        | d =>
          match msgType with
          | .str "audio" => .sendAudio d
          | .str "image" => .sendImage d
          | .str "text" => .sendText d
          | _ => .skip
    | _ => .skip

/-- The `receive_from_client` loop over the frames the client will
deliver, as the sequence of dispatched upstream send calls. -/
def receive_from_client : List ClientFrame → List ClientAction
  | [] => []
  | f :: rest =>
    match processClientFrame f with
    | .stop => []
    | .skip => receive_from_client rest
    | a => a :: receive_from_client rest

/-- The upstream messages one dispatched action writes on the wire. -/
def dispatchSends (g : GeminiConnection) : ClientAction → List JSON
  | .sendAudio d => g.send_audio d
  | .sendImage d => g.send_image d
  | .sendText d => g.send_text d
  | _ => []

/-! ## Session registry and supervisor (`connections`, `websocket_endpoint`,
src/main.py lines 152-196) -/

/-- Process state: a heap of `GeminiConnection` objects (Python object
identity becomes a heap index, since the registry and the supervisor's
local variable alias the same object) and the `connections` registry
mapping client ids to heap references. -/
structure Sys where
  heap : List GeminiConnection
  registry : List (String × Nat)

/-- Registry lookup (`connections[client_id]`, `client_id in connections`). -/
def regLookup (r : List (String × Nat)) (cid : String) : Option Nat :=
  (r.find? (fun kv => kv.1 == cid)).map (fun kv => kv.2)

/-- Registry insert (`connections[client_id] = gemini`): overwrites any
entry for the same id. -/
def regInsert (r : List (String × Nat)) (cid : String) (ref : Nat) :
    List (String × Nat) :=
  r.filter (fun kv => kv.1 != cid) ++ [(cid, ref)]

/-- Registry removal (`del connections[client_id]`). -/
def regRemove (r : List (String × Nat)) (cid : String) : List (String × Nat) :=
  r.filter (fun kv => kv.1 != cid)

/-- The `finally` block of `websocket_endpoint` (lines 190-196): when the
registry has an entry for the client id, close the registered
connection's websocket if still open, and delete the entry. -/
def teardownSession (sys : Sys) (cid : String) : Sys × List Ev :=
  match regLookup sys.registry cid with
  | none => (sys, [])
  | some ref =>
    let (heap1, evs) :=
      match sys.heap[ref]? with
      | none => (sys.heap, [])
      | some g =>
        if g.ws.isSome then (sys.heap.set ref g.close, [Ev.closedUpstream ref])
        else (sys.heap, [])
    (⟨heap1, regRemove sys.registry cid⟩, evs ++ [Ev.removedRegistry cid])

/-- Merge of the two pumps' event streams under an arbitrary scheduler
(the `asyncio.gather` interleaving). -/
def interleave : List Bool → List Ev → List Ev → List Ev
  | [], xs, ys => xs ++ ys
  | _ :: _, [], ys => ys
  | _ :: _, xs, [] => xs
  | b :: sb, x :: xs, y :: ys =>
    if b then x :: interleave sb xs (y :: ys)
    else y :: interleave sb (x :: xs) ys

/-- Events of the client-to-upstream pump during relaying. -/
def clientPumpEvents (g : GeminiConnection) (frames : List ClientFrame) :
    List Ev :=
  ((receive_from_client frames).flatMap (dispatchSends g)).map Ev.mediaUpstream

/-- Events of the upstream-to-client pump during relaying. -/
def geminiPumpEvents (msgs : List (Option JSON)) : List Ev :=
  (receive_from_gemini true msgs).map Ev.mediaToClient

/-- The `try`/`except` part of `websocket_endpoint` (lines 158-189),
without the `finally` teardown.  Environment inputs: `apiKey` is the
`GEMINI_API_KEY` value, `firstMsg` the parsed first client message
(`none` when `receive_json` raises), `openOk`/`ack` the upstream connect
outcomes, `frames`/`msgs` the streams the two pumps observe, and `sched`
the interleaving of the two pump tasks.  On any exception the handler
attempts a code-1011 close, which succeeds only when the socket was not
already closed (the 1008 close at line 170 precedes the `raise`). -/
def endpointBody (cid : String) (sys : Sys) (apiKey : Option String)
    (firstMsg : Option JSON) (openOk : Bool) (ack : Option String)
    (frames : List ClientFrame) (msgs : List (Option JSON))
    (sched : List Bool) : Sys × List Ev :=
  let evs0 := [Ev.accepted]
  match GeminiConnection.mkConn apiKey with
  | .error e =>
    (sys, evs0 ++ [Ev.closedClient 1011 ("Server error: " ++ e.msg)])
  | .ok g0 =>
    let ref := sys.heap.length
    let sys1 : Sys := ⟨sys.heap ++ [g0], regInsert sys.registry cid ref⟩
    let evs1 := evs0 ++ [Ev.registered cid]
    match firstMsg with
    | none =>
      (sys1, evs1 ++ [Ev.closedClient 1011 "Server error: receive_json"])
    | some cfgMsg =>
      match pyGet cfgMsg "type" with
      | .error e =>
        (sys1, evs1 ++ [Ev.closedClient 1011 ("Server error: " ++ e.msg)])
      | .ok tval =>
        if !(jeqStr tval "config") then
          (sys1, evs1 ++
            [Ev.closedClient 1008 "First message must be configuration"])
        else
          match pyGetD cfgMsg "config" (.obj []) with
          | .error e =>
            (sys1, evs1 ++ [Ev.closedClient 1011 ("Server error: " ++ e.msg)])
          | .ok cfg =>
            let g1 := g0.set_config cfg
            let cr := g1.connect openOk ack
            let sys2 : Sys := ⟨sys1.heap.set ref cr.g, sys1.registry⟩
            let evs2 := evs1 ++ cr.events
            match cr.result with
            | .error e =>
              (sys2, evs2 ++ [Ev.closedClient 1011 ("Server error: " ++ e.msg)])
            | .ok _ =>
              (sys2, evs2 ++ [Ev.pumpsStarted] ++
                interleave sched (clientPumpEvents cr.g frames)
                  (geminiPumpEvents msgs))

/-- `websocket_endpoint` (lines 156-196): the `try`/`except` body followed
unconditionally by the `finally` teardown. -/
def websocket_endpoint (cid : String) (sys : Sys) (apiKey : Option String)
    (firstMsg : Option JSON) (openOk : Bool) (ack : Option String)
    (frames : List ClientFrame) (msgs : List (Option JSON))
    (sched : List Bool) : Sys × List Ev :=
  let (sys1, evs) := endpointBody cid sys apiKey firstMsg openOk ack frames msgs sched
  let (sys2, tevs) := teardownSession sys1 cid
  (sys2, evs ++ tevs)

/-! ## Trace predicates -/

/-- Whether an event is the receipt of the setup acknowledgement. -/
def Ev.isAck : Ev → Bool
  | .ackReceived _ => true
  | _ => false

/-- Whether an event is a pump start or a relayed media message in either
direction. -/
def Ev.isRelay : Ev → Bool
  | .pumpsStarted => true
  | .mediaUpstream _ => true
  | .mediaToClient _ => true
  | _ => false

/-- Whether an event is part of teardown. -/
def Ev.isTeardown : Ev → Bool
  | .closedUpstream _ => true
  | .removedRegistry _ => true
  | _ => false

/-- Whether a trace contains a client close with the given code. -/
def hasCloseCode (code : Nat) (tr : List Ev) : Bool :=
  tr.any (fun e =>
    match e with
    | .closedClient c _ => c == code
    | _ => false)

/-- Whether a trace contains a call to `connect`. -/
def hasConnectCalled (tr : List Ev) : Bool :=
  tr.any (fun e =>
    match e with
    | .connectCalled => true
    | _ => false)

/-- Whether a trace contains any relay activity. -/
def hasRelay (tr : List Ev) : Bool :=
  tr.any Ev.isRelay

/-- Whether a relay envelope carries one of the four types the pump can
actually emit. -/
def envTypeOk (env : JSON) : Bool :=
  match jget env "type" with
  | some (.str s) => s == "audio" || s == "text" || s == "turn_complete" || s == "error"
  | _ => false

/-! ## Helper lemmas -/

theorem regLookup_regInsert (r : List (String × Nat)) (cid : String) (ref : Nat) :
    regLookup (regInsert r cid ref) cid = some ref := by
  induction r with
  | nil => simp [regInsert, regLookup]
  | cons kv rest ih =>
    by_cases h : kv.1 == cid
    · simp only [regInsert, regLookup] at ih ⊢
      simp [List.filter_cons, bne, h, ih]
    · simp only [regInsert, regLookup] at ih ⊢
      simp [List.filter_cons, List.find?_cons, bne, h, ih]

theorem regLookup_regRemove (r : List (String × Nat)) (cid : String) :
    regLookup (regRemove r cid) cid = none := by
  induction r with
  | nil => rfl
  | cons kv rest ih =>
    by_cases h : kv.1 == cid
    · simp only [regRemove, regLookup] at ih ⊢
      simp [List.filter_cons, bne, h, ih]
    · simp only [regRemove, regLookup] at ih ⊢
      simp [List.filter_cons, List.find?_cons, bne, h, ih]

theorem teardown_registry (sys : Sys) (cid : String) :
    regLookup (teardownSession sys cid).1.registry cid = none := by
  unfold teardownSession
  cases h : regLookup sys.registry cid with
  | none => exact h
  | some ref =>
    dsimp only
    cases hg : sys.heap[ref]? with
    | none => exact regLookup_regRemove sys.registry cid
    | some g =>
      by_cases hw : g.ws.isSome <;>
        simp [hw, regLookup_regRemove]

theorem teardown_heap_length (sys : Sys) (cid : String) :
    (teardownSession sys cid).1.heap.length = sys.heap.length := by
  unfold teardownSession
  cases h : regLookup sys.registry cid with
  | none => rfl
  | some ref =>
    dsimp only
    cases hg : sys.heap[ref]? with
    | none => rfl
    | some g =>
      by_cases hw : g.ws.isSome <;> simp [hw]

theorem teardown_closes (sys : Sys) (cid : String) (ref : Nat)
    (h : regLookup sys.registry cid = some ref) :
    Option.all (fun g => g.ws.isNone) ((teardownSession sys cid).1.heap[ref]?) = true := by
  unfold teardownSession
  rw [h]
  dsimp only
  cases hg : sys.heap[ref]? with
  | none => simp [hg]
  | some g =>
    by_cases hw : g.ws.isSome
    . have hlt : ref < sys.heap.length := by
        rcases List.getElem?_eq_some.mp hg with ⟨hl, _⟩
        exact hl
      simp [hw, List.getElem?_set_eq_of_lt _ hlt, GeminiConnection.close, Option.all]
    . have hn : g.ws = none := by
        cases hws : g.ws with
        | none => rfl
        | some u => rw [hws] at hw; simp at hw
      simp [hw, hg, Option.all, hn]

theorem teardown_other (sys : Sys) (cid : String) (ref rr : Nat)
    (h : regLookup sys.registry cid = some ref) (hne : rr ≠ ref) :
    (teardownSession sys cid).1.heap[rr]? = sys.heap[rr]? := by
  unfold teardownSession
  rw [h]
  dsimp only
  cases hg : sys.heap[ref]? with
  | none => rfl
  | some g =>
    by_cases hw : g.ws.isSome
    . simp [hw, List.getElem?_set_ne (fun e => hne e.symm)]
    . simp [hw]

theorem teardown_events (sys : Sys) (cid : String) :
    (teardownSession sys cid).2.all Ev.isTeardown = true := by
  unfold teardownSession
  cases h : regLookup sys.registry cid with
  | none => rfl
  | some ref =>
    dsimp only
    cases hg : sys.heap[ref]? with
    | none => rfl
    | some g =>
      by_cases hw : g.ws.isSome <;> simp [hw, Ev.isTeardown]

theorem all_mono {α : Type} (p q : α → Bool) (l : List α)
    (h : l.all p = true) (hpq : ∀ a, p a = true → q a = true) : l.all q = true := by
  induction l with
  | nil => rfl
  | cons a l ih =>
    simp only [List.all_cons, Bool.and_eq_true] at h ⊢
    exact ⟨hpq a h.1, ih h.2⟩

theorem all_takeWhile {α : Type} (p q : α → Bool) (l : List α)
    (h : l.all q = true) : (l.takeWhile p).all q = true := by
  induction l with
  | nil => rfl
  | cons a l ih =>
    simp only [List.all_cons, Bool.and_eq_true] at h
    by_cases hp : p a
    · simp [List.takeWhile_cons, hp, h.1, ih h.2]
    · simp [List.takeWhile_cons, hp]

theorem any_eq_false_of_all {α : Type} (p q : α → Bool) (l : List α)
    (h : l.all q = true) (hpq : ∀ a, q a = true → p a = false) :
    l.any p = false := by
  induction l with
  | nil => rfl
  | cons a l ih =>
    simp only [List.all_cons, Bool.and_eq_true] at h
    simp [List.any_cons, hpq a h.1, ih h.2]

theorem takeWhile_until_ack (pre post : List Ev) (a : String)
    (h : pre.all (fun e => !e.isAck) = true) :
    ((pre ++ Ev.ackReceived a :: post).takeWhile (fun e => !e.isAck)) = pre := by
  induction pre with
  | nil => simp [List.takeWhile_cons, Ev.isAck]
  | cons e l ih =>
    simp only [List.all_cons, Bool.and_eq_true] at h
    simp [List.takeWhile_cons, h.1, ih h.2]

/-! ## Claim C4: `connect` with unset configuration -/

/-- A connection object as the constructor leaves it: null handle, null
(unset) configuration. -/
def connNoConfig : GeminiConnection :=
  { api_key := "k", model := "gemini-2.0-flash-exp", uri := "u", ws := none,
    config := .null }

/-- C4, counterexample: with the Session Configuration unset, calling
`connect` when the provider connection opens leaves the connection handle
set (non-null) even though the call fails with the ConfigurationMissing
error — the source opens the websocket (line 43) before checking the
configuration (line 49), so the claim's "the connection handle remains
null and no streaming connection is opened" is false. -/
theorem c4_counterexample :
    (connNoConfig.connect true (some "ack")).result
        = .error (.valueError "Configuration must be set before connecting")
      ∧ (connNoConfig.connect true (some "ack")).g.ws = some () := by
  exact ⟨rfl, rfl⟩

/-- C4, amended: if the Session Configuration is unset (falsy) when
`connect()` is called and the provider connection opens, `connect()` first
opens the streaming connection — so on this failure the handle is set,
not null — and then fails with the ConfigurationMissing `ValueError`
before building or sending any setup message; the stored configuration is
unchanged. -/
theorem c4_amended_connect_config_missing (g : GeminiConnection)
    (ack : Option String) (h : g.config.truthy = false) :
    (g.connect true ack).result
        = .error (.valueError "Configuration must be set before connecting")
      ∧ (g.connect true ack).sent = []
      ∧ (g.connect true ack).g.ws = some ()
      ∧ (g.connect true ack).g.config = g.config := by
  unfold GeminiConnection.connect
  simp [h]

/-- C4, witness for the amended theorem at a concrete connection. -/
theorem c4_witness :
    connNoConfig.config.truthy = false
      ∧ (connNoConfig.connect true (some "ack")).sent = []
      ∧ (connNoConfig.connect true (some "ack")).g.ws = some () :=
  ⟨rfl, (c4_amended_connect_config_missing connNoConfig (some "ack") rfl).2.1,
    (c4_amended_connect_config_missing connNoConfig (some "ack") rfl).2.2.1⟩

/-! ## Claim C5: two-part provider message forwarding -/

/-- A provider part carrying inline audio data. -/
def audioPart (a : String) : JSON :=
  .obj [("inlineData", .obj [("data", .str a)])]

/-- A provider part carrying text. -/
def textPart (t : String) : JSON :=
  .obj [("text", .str t)]

/-- A provider message with a two-part model turn and a `turnComplete`
flag. -/
def twoPartMessage (p q : JSON) (tc : Bool) : JSON :=
  .obj [("serverContent", .obj
    [("modelTurn", .obj [("parts", .arr [p, q])]),
     ("turnComplete", .bool tc)])]

/-- C5: a provider message whose model turn has two parts, one audio and
one text (both non-empty), makes the upstream-to-client pump send exactly
the two corresponding envelopes in part order, followed by the
`turn_complete` envelope exactly when `serverContent.turnComplete` is
true; the loop continues.  Both part orders are covered. -/
theorem c5_two_part_forwarding (a t : String) (tc : Bool)
    (ha : a ≠ "") (ht : t ≠ "") :
    processGeminiResponse true (twoPartMessage (audioPart a) (textPart t) tc)
        = ⟨[audioEnvelope (.str a), textEnvelope (.str t)]
            ++ (if tc then [turnCompleteEnvelope] else []), true⟩
      ∧ processGeminiResponse true (twoPartMessage (textPart t) (audioPart a) tc)
        = ⟨[textEnvelope (.str t), audioEnvelope (.str a)]
            ++ (if tc then [turnCompleteEnvelope] else []), true⟩ := by
  constructor <;>
    simp [processGeminiResponse, twoPartMessage, audioPart, textPart,
      pyGetD, pyGet, pyIn, pyIter, pyIndex, jfieldD, jfield, processParts,
      partStep, strContains, jeqStr, JSON.truthy, PartsOutcome.push,
      bne, ha, ht]

/-- C5, witness at concrete data. -/
theorem c5_witness :
    ("QQ==" : String) ≠ "" ∧ ("hi" : String) ≠ ""
      ∧ processGeminiResponse true
          (twoPartMessage (audioPart "QQ==") (textPart "hi") true)
        = ⟨[audioEnvelope (.str "QQ=="), textEnvelope (.str "hi"),
            turnCompleteEnvelope], true⟩ :=
  ⟨by decide, by decide,
    by simpa using (c5_two_part_forwarding "QQ==" "hi" true (by decide) (by decide)).1⟩

/-! ## Claim C6: text dispatch and `client_content` payload shape -/

/-- C6: a client envelope `{"type": "text", "data": t}` dispatches to
`send_text`, which (on an open connection) writes exactly one upstream
payload whose `client_content.turns[0]` is
`{"role": "user", "parts": [{"text": t}]}` and whose
`client_content.turn_complete` is `true`. -/
theorem c6_text_dispatch_payload (t : String) (g : GeminiConnection)
    (h : g.ws = some ()) :
    processClientFrame (.text (some (.obj
        [("type", .str "text"), ("data", .str t)]))) = .sendText (.str t)
      ∧ g.send_text (.str t) = [textMessage (.str t)]
      ∧ ((jget (textMessage (.str t)) "client_content").bind
          (fun cc => (jget cc "turns").bind (fun ts => jindex ts 0)))
        = some (.obj [("role", .str "user"),
            ("parts", .arr [.obj [("text", .str t)]])])
      ∧ ((jget (textMessage (.str t)) "client_content").bind
          (fun cc => jget cc "turn_complete")) = some (.bool true) := by
  refine ⟨?_, ?_, rfl, rfl⟩
  · rfl
  · simp [GeminiConnection.send_text, h]

/-- A connection object with an open websocket handle. -/
def connOpen : GeminiConnection :=
  { api_key := "k", model := "gemini-2.0-flash-exp", uri := "u",
    ws := some (), config := .null }

/-- C6, witness at the spec's concrete scenario (`"hello"`). -/
theorem c6_witness :
    connOpen.ws = some ()
      ∧ processClientFrame (.text (some (.obj
          [("type", .str "text"), ("data", .str "hello")])))
        = .sendText (.str "hello")
      ∧ connOpen.send_text (.str "hello") = [textMessage (.str "hello")] :=
  ⟨rfl, (c6_text_dispatch_payload "hello" connOpen rfl).1,
    (c6_text_dispatch_payload "hello" connOpen rfl).2.1⟩

/-! ## Claim C7: invalid client envelopes are skipped -/

/-- C7: a parsed client text frame that is a JSON object lacking a
non-null `type` or a non-null `data` field is skipped: the loop body
dispatches nothing to the upstream connection and the pump continues with
the remaining frames. -/
theorem c7_invalid_envelope_skipped (fs : List (String × JSON))
    (rest : List ClientFrame)
    (h : jfield fs "type" = none ∨ jfield fs "type" = some .null
       ∨ jfield fs "data" = none ∨ jfield fs "data" = some .null) :
    processClientFrame (.text (some (.obj fs))) = .skip
      ∧ receive_from_client (.text (some (.obj fs)) :: rest)
        = receive_from_client rest := by
  have hskip : processClientFrame (.text (some (.obj fs))) = .skip := by
    unfold processClientFrame
    rcases h with h | h | h | h
    · simp [jfieldD, h, JSON.truthy]
    · simp [jfieldD, h, JSON.truthy]
    · by_cases htp : (jfieldD fs "type" .null).truthy <;> simp [jfieldD, h, htp]
    · by_cases htp : (jfieldD fs "type" .null).truthy <;> simp [jfieldD, h, htp]
  refine ⟨hskip, ?_⟩
  simp [receive_from_client, hskip]

/-- C7, witness: an envelope with a `type` but no `data` field. -/
theorem c7_witness :
    (jfield [("type", JSON.str "audio")] "data" = none)
      ∧ processClientFrame (.text (some (.obj [("type", JSON.str "audio")])))
        = .skip
      ∧ receive_from_client [.text (some (.obj [("type", JSON.str "audio")]))]
        = [] :=
  ⟨rfl,
    (c7_invalid_envelope_skipped [("type", JSON.str "audio")] []
      (Or.inr (Or.inr (Or.inl rfl)))).1,
    (c7_invalid_envelope_skipped [("type", JSON.str "audio")] []
      (Or.inr (Or.inr (Or.inl rfl)))).2⟩

/-! ## Claim C8: asymmetric parse-failure handling -/

/-- C8: a JSON parse failure on a client frame is caught inside the
iteration and the client pump continues with the remaining frames,
whereas a parse failure on an upstream provider message ends the upstream
pump at once — nothing further is forwarded no matter how many messages
follow. -/
theorem c8_parse_failure_asymmetry (rest : List ClientFrame)
    (msgs : List (Option JSON)) :
    receive_from_client (.text none :: rest) = receive_from_client rest
      ∧ receive_from_gemini true (none :: msgs) = [] := by
  constructor
  · simp [receive_from_client, processClientFrame]
  · simp [receive_from_gemini]

/-! ## Claim C9: the pump only ever sends the four known envelope types -/

theorem push_sent (o : PartsOutcome) (env : JSON) :
    (o.push env).sent = env :: o.sent := by
  cases o <;> rfl

theorem partStep_envTypeOk (p env : JSON) (h : partStep p = .ok (some env)) :
    envTypeOk env = true := by
  unfold partStep at h
  repeat' split at h
  all_goals simp_all
  · subst h; rfl
  · subst h; rfl

theorem processParts_envTypeOk (connected : Bool) (ps : List JSON) :
    (processParts connected ps).sent.all envTypeOk = true := by
  induction ps with
  | nil => rfl
  | cons p rest ih =>
    unfold processParts
    cases connected with
    | false => rfl
    | true =>
      cases hps : partStep p with
      | error e =>
        show (PartsOutcome.faulted [] e).sent.all envTypeOk = true
        rfl
      | ok o =>
        cases o with
        | none =>
          show (processParts true rest).sent.all envTypeOk = true
          exact ih
        | some env =>
          show ((processParts true rest).push env).sent.all envTypeOk = true
          rw [push_sent]
          simp [List.all_cons, partStep_envTypeOk p env hps, ih]

theorem mkFault_all (connected : Bool) (sent : List JSON) (e : PyErr)
    (h : sent.all envTypeOk = true) :
    (mkFault connected sent e).sent.all envTypeOk = true := by
  cases connected <;>
    simp [mkFault, faultEnvelope, errorEnvelope, envTypeOk, jget, jfield, h]

theorem all_append_envOk (l1 l2 : List JSON) (h1 : l1.all envTypeOk = true)
    (h2 : l2.all envTypeOk = true) : (l1 ++ l2).all envTypeOk = true := by
  simp [List.all_append, h1, h2]

theorem processGeminiResponse_envTypeOk (connected : Bool) (r : JSON) :
    (processGeminiResponse connected r).sent.all envTypeOk = true := by
  unfold processGeminiResponse
  cases h1 : pyGetD r "serverContent" (.obj []) with
  | error e => exact mkFault_all connected [] e rfl
  | ok sc =>
    dsimp only
    cases h2 : pyGetD sc "modelTurn" (.obj []) with
    | error e => exact mkFault_all connected [] e rfl
    | ok mt =>
      dsimp only
      cases h3 : pyGetD mt "parts" (.arr []) with
      | error e => exact mkFault_all connected [] e rfl
      | ok pv =>
        dsimp only
        cases h4 : pyIter pv with
        | error e => exact mkFault_all connected [] e rfl
        | ok parts =>
          dsimp only
          have hparts := processParts_envTypeOk connected parts
          cases h5 : processParts connected parts with
          | returned sent =>
            rw [h5] at hparts
            exact hparts
          | faulted sent e =>
            rw [h5] at hparts
            exact mkFault_all connected sent e hparts
          | done sent1 =>
            rw [h5] at hparts
            dsimp only [PartsOutcome.sent] at hparts
            dsimp only
            cases h6 : pyGet sc "turnComplete" with
            | error e => exact mkFault_all connected sent1 e hparts
            | ok tc =>
              dsimp only
              have hsent2 :
                  (sent1 ++ (if tc.truthy && connected
                    then [turnCompleteEnvelope] else [])).all envTypeOk = true := by
                by_cases htc : tc.truthy && connected <;>
                  simp [htc, List.all_append, hparts, turnCompleteEnvelope,
                    envTypeOk, jget, jfield]
              cases h7 : pyIn "error" r with
              | error e => exact mkFault_all connected _ e hsent2
              | ok b =>
                cases b with
                | false => exact hsent2
                | true =>
                  dsimp only
                  cases h8 : pyIndex r "error" with
                  | error e => exact mkFault_all connected _ e hsent2
                  | ok ev =>
                    dsimp only
                    cases h9 : pyGetD ev "message" (.str "Unknown Gemini error") with
                    | error e => exact mkFault_all connected _ e hsent2
                    | ok m =>
                      dsimp only
                      refine all_append_envOk _ _ hsent2 ?_
                      cases connected <;>
                        simp [errorEnvelope, envTypeOk, jget, jfield]

/-- C9: every envelope the upstream-to-client pump sends to the client —
on any stream of provider messages, parseable or not, with the client
connected or not — has type `audio`, `text`, `turn_complete` or `error`;
in particular, although the loop initialises a `{"type": "unknown"}`
value, no `unknown` envelope is ever sent. -/
theorem c9_no_unknown_envelope (connected : Bool)
    (msgs : List (Option JSON)) :
    (receive_from_gemini connected msgs).all envTypeOk = true := by
  cases connected with
  | false =>
    cases msgs with
    | nil => rfl
    | cons m rest => rfl
  | true =>
    induction msgs with
    | nil => rfl
    | cons m rest ih =>
      cases m with
      | none => rfl
      | some r =>
        show ((processGeminiResponse true r).sent ++
            (if (processGeminiResponse true r).cont = true
              then receive_from_gemini true rest else [])).all envTypeOk = true
        refine all_append_envOk _ _ (processGeminiResponse_envTypeOk true r) ?_
        by_cases hcont : (processGeminiResponse true r).cont = true <;>
          simp [hcont, ih]

/-! ## Supervisor-level helper lemmas -/

/-- An event that is neither the acknowledgement nor relay activity. -/
def Ev.quiet (e : Ev) : Bool := !e.isAck && !e.isRelay

theorem isTeardown_quiet (e : Ev) (h : e.isTeardown = true) :
    Ev.quiet e = true := by
  cases e <;> simp_all [Ev.isTeardown, Ev.quiet, Ev.isAck, Ev.isRelay]

theorem teardown_quiet (sys : Sys) (cid : String) :
    (teardownSession sys cid).2.all Ev.quiet = true :=
  all_mono _ _ _ (teardown_events sys cid) isTeardown_quiet

theorem quiet_takeWhile_all (tr : List Ev) (h : tr.all Ev.quiet = true) :
    (tr.takeWhile (fun e => !e.isAck)).all (fun e => !e.isRelay) = true := by
  apply all_takeWhile
  refine all_mono _ _ _ h (fun e he => ?_)
  simp only [Ev.quiet, Bool.and_eq_true] at he
  exact he.2

theorem teardown_no_close (sys : Sys) (cid : String) (code : Nat) :
    hasCloseCode code (teardownSession sys cid).2 = false := by
  refine any_eq_false_of_all _ _ _ (teardown_events sys cid) (fun e he => ?_)
  cases e <;> simp_all [Ev.isTeardown]

theorem teardown_no_connect (sys : Sys) (cid : String) :
    hasConnectCalled (teardownSession sys cid).2 = false := by
  refine any_eq_false_of_all _ _ _ (teardown_events sys cid) (fun e he => ?_)
  cases e <;> simp_all [Ev.isTeardown]

theorem teardown_no_relay (sys : Sys) (cid : String) :
    hasRelay (teardownSession sys cid).2 = false := by
  refine any_eq_false_of_all _ _ _ (teardown_events sys cid) (fun e he => ?_)
  cases e <;> simp_all [Ev.isTeardown, Ev.isRelay]

theorem websocket_endpoint_fst (cid : String) (sys : Sys) (k : Option String)
    (fm : Option JSON) (o : Bool) (a : Option String)
    (f : List ClientFrame) (m : List (Option JSON)) (s : List Bool) :
    (websocket_endpoint cid sys k fm o a f m s).1
      = (teardownSession (endpointBody cid sys k fm o a f m s).1 cid).1 := rfl

theorem websocket_endpoint_snd (cid : String) (sys : Sys) (k : Option String)
    (fm : Option JSON) (o : Bool) (a : Option String)
    (f : List ClientFrame) (m : List (Option JSON)) (s : List Bool) :
    (websocket_endpoint cid sys k fm o a f m s).2
      = (endpointBody cid sys k fm o a f m s).2
        ++ (teardownSession (endpointBody cid sys k fm o a f m s).1 cid).2 := rfl

theorem connect_ok_events (g : GeminiConnection) (openOk : Bool)
    (ack : Option String) (a : String)
    (h : (g.connect openOk ack).result = .ok a) :
    ∃ s, (g.connect openOk ack).events
      = [.connectCalled, .wsOpened, .sentSetup s, .ackReceived a] := by
  unfold GeminiConnection.connect at h ⊢
  cases openOk with
  | false => simp at h
  | true =>
    dsimp only at h ⊢
    cases htr : g.config.truthy with
    | false => simp [htr] at h
    | true =>
      cases hsm : setupMessage g.model g.config with
      | error e2 => simp [htr, hsm] at h
      | ok st =>
        cases ack with
        | none => simp [htr, hsm] at h
        | some b =>
          have hb : b = a := by simpa [htr, hsm] using h
          subst hb
          exact ⟨st, rfl⟩

theorem connect_error_events_quiet (g : GeminiConnection) (openOk : Bool)
    (ack : Option String) (e : PyErr)
    (h : (g.connect openOk ack).result = .error e) :
    (g.connect openOk ack).events.all Ev.quiet = true := by
  unfold GeminiConnection.connect at h ⊢
  cases openOk with
  | false => rfl
  | true =>
    dsimp only at h ⊢
    cases htr : g.config.truthy with
    | false => rfl
    | true =>
      cases hsm : setupMessage g.model g.config with
      | error e2 => rfl
      | ok st =>
        cases ack with
        | none => rfl
        | some b => simp [htr, hsm] at h

theorem endpointBody_spec (cid : String) (sys : Sys) (k : Option String)
    (fm : Option JSON) (o : Bool) (a : Option String)
    (f : List ClientFrame) (m : List (Option JSON)) (s : List Bool) :
    (endpointBody cid sys k fm o a f m s).1 = sys
      ∨ ((endpointBody cid sys k fm o a f m s).1.registry
            = regInsert sys.registry cid sys.heap.length
          ∧ ∃ g, (endpointBody cid sys k fm o a f m s).1.heap[sys.heap.length]?
              = some g) := by
  unfold endpointBody
  cases hmk : GeminiConnection.mkConn k with
  | error e => exact Or.inl rfl
  | ok g0 =>
    dsimp only
    cases fm with
    | none =>
      exact Or.inr ⟨rfl, g0, List.getElem?_concat_length sys.heap g0⟩
    | some cfgMsg =>
      dsimp only
      cases hpg : pyGet cfgMsg "type" with
      | error e =>
        exact Or.inr ⟨rfl, g0, List.getElem?_concat_length sys.heap g0⟩
      | ok tval =>
        dsimp only
        cases hj : jeqStr tval "config" with
        | false =>
          exact Or.inr ⟨rfl, g0, List.getElem?_concat_length sys.heap g0⟩
        | true =>
          cases hcf : pyGetD cfgMsg "config" (.obj []) with
          | error e =>
            exact Or.inr ⟨rfl, g0, List.getElem?_concat_length sys.heap g0⟩
          | ok cfg =>
            dsimp only
            cases hres : ((g0.set_config cfg).connect o a).result with
            | error e =>
              refine Or.inr ⟨rfl, ((g0.set_config cfg).connect o a).g, ?_⟩
              exact List.getElem?_set_eq_of_lt _ (by simp)
            | ok ackmsg =>
              refine Or.inr ⟨rfl, ((g0.set_config cfg).connect o a).g, ?_⟩
              exact List.getElem?_set_eq_of_lt _ (by simp)

/-! ## Claim C2: teardown clears the registry entry and the handle -/

/-- C2: on every exit path of the supervisor — constructor failure, a bad
or missing first message, a failed or refused handshake, or a completed
relay — the unconditional teardown leaves the Session Registry without an
entry for the client id, and the heap cell allocated for this session's
`GeminiConnection` (index `sys.heap.length`, when one was allocated) holds
a null websocket handle. -/
theorem c2_teardown_clears_registry_and_handle (cid : String) (sys : Sys)
    (k : Option String) (fm : Option JSON) (o : Bool) (a : Option String)
    (f : List ClientFrame) (m : List (Option JSON)) (s : List Bool) :
    regLookup (websocket_endpoint cid sys k fm o a f m s).1.registry cid = none
      ∧ Option.all (fun g => g.ws.isNone)
          ((websocket_endpoint cid sys k fm o a f m s).1.heap[sys.heap.length]?)
        = true := by
  rw [websocket_endpoint_fst]
  constructor
  · exact teardown_registry _ cid
  · rcases endpointBody_spec cid sys k fm o a f m s with h | ⟨hreg, g, hget⟩
    · rw [h]
      have hnone : (teardownSession sys cid).1.heap[sys.heap.length]? = none := by
        apply List.getElem?_eq_none
        rw [teardown_heap_length]
      rw [hnone]
      rfl
    · have hlk : regLookup (endpointBody cid sys k fm o a f m s).1.registry cid
          = some sys.heap.length := by
        rw [hreg]
        exact regLookup_regInsert _ _ _
      exact teardown_closes _ cid _ hlk

/-! ## Claim C3: handshake strictly precedes relaying -/

/-- C3: in every session trace, no relay activity — the start of the pumps
or a media message in either direction — occurs before the first receipt
of the provider's setup acknowledgement: the prefix of the trace before
the first `ackReceived` event is free of relay events. -/
theorem c3_handshake_precedes_relay (cid : String) (sys : Sys)
    (k : Option String) (fm : Option JSON) (o : Bool) (a : Option String)
    (f : List ClientFrame) (m : List (Option JSON)) (s : List Bool) :
    (((websocket_endpoint cid sys k fm o a f m s).2).takeWhile
        (fun e => !e.isAck)).all (fun e => !e.isRelay) = true := by
  rw [websocket_endpoint_snd]
  have htevs := teardown_quiet (endpointBody cid sys k fm o a f m s).1 cid
  generalize (teardownSession (endpointBody cid sys k fm o a f m s).1 cid).2
    = tevs at htevs ⊢
  unfold endpointBody
  cases hmk : GeminiConnection.mkConn k with
  | error e =>
    exact quiet_takeWhile_all _
      (by simp [List.all_append, htevs, Ev.quiet, Ev.isAck, Ev.isRelay])
  | ok g0 =>
    dsimp only
    cases fm with
    | none =>
      exact quiet_takeWhile_all _
        (by simp [List.all_append, htevs, Ev.quiet, Ev.isAck, Ev.isRelay])
    | some cfgMsg =>
      dsimp only
      cases hpg : pyGet cfgMsg "type" with
      | error e =>
        exact quiet_takeWhile_all _
          (by simp [List.all_append, htevs, Ev.quiet, Ev.isAck, Ev.isRelay])
      | ok tval =>
        dsimp only
        cases hj : jeqStr tval "config" with
        | false =>
          exact quiet_takeWhile_all _
            (by simp [List.all_append, htevs, Ev.quiet, Ev.isAck, Ev.isRelay])
        | true =>
          cases hcf : pyGetD cfgMsg "config" (.obj []) with
          | error e =>
            exact quiet_takeWhile_all _
              (by simp [List.all_append, htevs, Ev.quiet, Ev.isAck, Ev.isRelay])
          | ok cfg =>
            dsimp only
            cases hres : ((g0.set_config cfg).connect o a).result with
            | error e =>
              have hev := connect_error_events_quiet _ _ _ _ hres
              exact quiet_takeWhile_all _
                (by simp [List.all_append, htevs, hev, Ev.quiet, Ev.isAck,
                  Ev.isRelay])
            | ok ackmsg =>
              obtain ⟨st, hev⟩ := connect_ok_events _ _ _ _ hres
              rw [hev]
              simp [List.takeWhile_cons, Ev.isAck, Ev.isRelay]

/-! ## Claim C1: non-config first message -/

/-- Truthiness of the `GEMINI_API_KEY` environment value. -/
def hasApiKey : Option String → Bool
  | none => false
  | some sk => sk != ""

/-- Whether the parsed first client message would pass the
`config_data.get("type") != "config"` check without raising. -/
def firstTypeConfig (msg : JSON) : Bool :=
  match pyGet msg "type" with
  | .ok t => jeqStr t "config"
  | .error _ => false

theorem mkConn_ok_of_hasApiKey (k : Option String) (h : hasApiKey k = true) :
    ∃ g, GeminiConnection.mkConn k = .ok g := by
  cases k with
  | none => simp [hasApiKey] at h
  | some sk =>
    cases heq : sk == "" with
    | true => simp [hasApiKey, bne, heq] at h
    | false =>
      exact ⟨_, by unfold GeminiConnection.mkConn; dsimp only; rw [if_neg (by simp [heq])]⟩

/-- C1, counterexample: a first message that parses as a JSON array is not
an envelope with type `config`, yet the relay does not close the client
connection with policy-violation code 1008: the `.get` call on the parsed
list raises before the check, the generic handler closes with 1011
instead, and `connect` is never called. -/
theorem c1_counterexample :
    hasCloseCode 1008 (websocket_endpoint "c" ⟨[], []⟩ (some "k")
        (some (.arr [])) true (some "ok") [] [] []).2 = false
      ∧ hasCloseCode 1011 (websocket_endpoint "c" ⟨[], []⟩ (some "k")
          (some (.arr [])) true (some "ok") [] [] []).2 = true
      ∧ hasConnectCalled (websocket_endpoint "c" ⟨[], []⟩ (some "k")
          (some (.arr [])) true (some "ok") [] [] []).2 = false := by
  refine ⟨rfl, rfl, rfl⟩

/-- C1, amended: for a session whose constructor succeeds and whose first
client message parses but does not pass the `type == "config"` check,
`connect` is never called and no relaying ever happens; the client
connection is closed with policy-violation code 1008 when the first
message is a JSON object, and with internal-error code 1011 (the `.get`
attribute error path) when it is not an object. -/
theorem c1_amended_first_message_policy (cid : String) (sys : Sys)
    (k : Option String) (msg : JSON) (o : Bool) (a : Option String)
    (f : List ClientFrame) (m : List (Option JSON)) (s : List Bool)
    (hk : hasApiKey k = true) (hm : firstTypeConfig msg = false) :
    hasConnectCalled
        (websocket_endpoint cid sys k (some msg) o a f m s).2 = false
      ∧ hasRelay (websocket_endpoint cid sys k (some msg) o a f m s).2 = false
      ∧ hasCloseCode (if msg.isObj then 1008 else 1011)
          (websocket_endpoint cid sys k (some msg) o a f m s).2 = true := by
  obtain ⟨g0, hg0⟩ := mkConn_ok_of_hasApiKey k hk
  rw [websocket_endpoint_snd]
  have h1 := teardown_no_connect
    (endpointBody cid sys k (some msg) o a f m s).1 cid
  have h2 := teardown_no_relay
    (endpointBody cid sys k (some msg) o a f m s).1 cid
  generalize (teardownSession (endpointBody cid sys k (some msg) o a f m s).1
    cid).2 = tevs at h1 h2 ⊢
  unfold endpointBody
  rw [hg0]
  dsimp only
  cases msg with
  | obj fs =>
    have hm2 : jeqStr (jfieldD fs "type" .null) "config" = false := hm
    dsimp only [pyGet]
    rw [hm2]
    refine ⟨?_, ?_, ?_⟩
    · simp [hasConnectCalled, List.any_append] at h1 ⊢
      exact h1
    · simp [hasRelay, List.any_append, Ev.isRelay] at h2 ⊢
      exact h2
    · simp [hasCloseCode, List.any_append, JSON.isObj]
  | null =>
    refine ⟨?_, ?_, ?_⟩
    · simp [pyGet, hasConnectCalled, List.any_append] at h1 ⊢
      exact h1
    · simp [pyGet, hasRelay, List.any_append, Ev.isRelay] at h2 ⊢
      exact h2
    · simp [pyGet, hasCloseCode, List.any_append, JSON.isObj]
  | bool b =>
    refine ⟨?_, ?_, ?_⟩
    · simp [pyGet, hasConnectCalled, List.any_append] at h1 ⊢
      exact h1
    · simp [pyGet, hasRelay, List.any_append, Ev.isRelay] at h2 ⊢
      exact h2
    · simp [pyGet, hasCloseCode, List.any_append, JSON.isObj]
  | num n =>
    refine ⟨?_, ?_, ?_⟩
    · simp [pyGet, hasConnectCalled, List.any_append] at h1 ⊢
      exact h1
    · simp [pyGet, hasRelay, List.any_append, Ev.isRelay] at h2 ⊢
      exact h2
    · simp [pyGet, hasCloseCode, List.any_append, JSON.isObj]
  | str sv =>
    refine ⟨?_, ?_, ?_⟩
    · simp [pyGet, hasConnectCalled, List.any_append] at h1 ⊢
      exact h1
    · simp [pyGet, hasRelay, List.any_append, Ev.isRelay] at h2 ⊢
      exact h2
    · simp [pyGet, hasCloseCode, List.any_append, JSON.isObj]
  | arr elems =>
    refine ⟨?_, ?_, ?_⟩
    · simp [pyGet, hasConnectCalled, List.any_append] at h1 ⊢
      exact h1
    · simp [pyGet, hasRelay, List.any_append, Ev.isRelay] at h2 ⊢
      exact h2
    · simp [pyGet, hasCloseCode, List.any_append, JSON.isObj]

/-- C1, witness for the amended theorem: an object envelope with a
non-config type is closed with 1008, `connect` never called, nothing
relayed. -/
theorem c1_witness :
    hasApiKey (some "k") = true
      ∧ firstTypeConfig (.obj [("type", .str "chat")]) = false
      ∧ hasConnectCalled (websocket_endpoint "c" ⟨[], []⟩ (some "k")
          (some (.obj [("type", .str "chat")])) true (some "ok") [] [] []).2
        = false
      ∧ hasCloseCode 1008 (websocket_endpoint "c" ⟨[], []⟩ (some "k")
          (some (.obj [("type", .str "chat")])) true (some "ok") [] [] []).2
        = true :=
  ⟨rfl, rfl,
    (c1_amended_first_message_policy "c" ⟨[], []⟩ (some "k")
      (.obj [("type", .str "chat")]) true (some "ok") [] [] [] rfl rfl).1,
    (c1_amended_first_message_policy "c" ⟨[], []⟩ (some "k")
      (.obj [("type", .str "chat")]) true (some "ok") [] [] [] rfl rfl).2.2⟩

/-! ## Claim C10: duplicate client ids -/

/-- C10: registration under an already-used client id overwrites the
registry entry (`regInsert` always wins the lookup), and teardown for a
client id closes and removes whichever `GeminiConnection` is registered
under that id at teardown time — leaving every other heap cell, in
particular the overwritten session's still-open connection, untouched.
The entry-iff-active-supervisor invariant therefore only holds when
concurrent sessions use distinct client ids. -/
theorem c10_registry_overwrite_teardown (sys : Sys) (cid : String) (ref : Nat)
    (h : regLookup sys.registry cid = some ref) :
    (∀ r, regLookup (regInsert sys.registry cid r) cid = some r)
      ∧ regLookup (teardownSession sys cid).1.registry cid = none
      ∧ Option.all (fun g => g.ws.isNone)
          ((teardownSession sys cid).1.heap[ref]?) = true
      ∧ ∀ rr, rr ≠ ref →
          (teardownSession sys cid).1.heap[rr]? = sys.heap[rr]? :=
  ⟨fun r => regLookup_regInsert sys.registry cid r,
    teardown_registry _ _,
    teardown_closes _ _ _ h,
    fun rr hne => teardown_other sys cid ref rr h hne⟩

/-- Two concurrent sessions, both with open upstream connections, that
used the same client id: the registry holds the second registration. -/
def sysTwo : Sys :=
  ⟨[connOpen, { connOpen with api_key := "k2" }],
    regInsert (regInsert [] "c" 0) "c" 1⟩

/-- C10, witness: with both sessions registered under `"c"` (the second
overwriting the first), the first supervisor's teardown closes the
second's still-open connection and removes the shared entry, while the
first session's own connection cell is untouched. -/
theorem c10_witness :
    regLookup sysTwo.registry "c" = some 1
      ∧ regLookup (regInsert sysTwo.registry "c" 7) "c" = some 7
      ∧ regLookup (teardownSession sysTwo "c").1.registry "c" = none
      ∧ Option.all (fun g => g.ws.isNone)
          ((teardownSession sysTwo "c").1.heap[1]?) = true
      ∧ (teardownSession sysTwo "c").1.heap[0]? = sysTwo.heap[0]? :=
  ⟨rfl,
    (c10_registry_overwrite_teardown sysTwo "c" 1 rfl).1 7,
    (c10_registry_overwrite_teardown sysTwo "c" 1 rfl).2.1,
    (c10_registry_overwrite_teardown sysTwo "c" 1 rfl).2.2.1,
    (c10_registry_overwrite_teardown sysTwo "c" 1 rfl).2.2.2 0 (by decide)⟩

end GeminiLive
